import Mathlib

/-
Verification of the SIP REFER transfer orchestration module
(res/res_sip_refer.c): a shallow embedding of the REFER progress
monitor, its notification dispatcher, the progress frame hook, and the
attended and blind transfer request handlers, together with theorems
about their behavior.

External collaborators (pjsip, the bridging core, the dialplan) are
modelled by explicit parameters: every fallible collaborator call is
given a boolean success parameter, and every collaborator decision
(bridge outcome, extension existence, header contents) is an input.
-/

namespace SipRefer

/-! ## Control frame subclasses

Values of the ast_control_frame_type enumeration from asterisk/frame.h
used by the progress frame hook.  The field subclass.integer of a
control frame is an int, so subclasses are modelled as Int. -/

def AST_CONTROL_RING : Int := 2

def AST_CONTROL_RINGING : Int := 3

def AST_CONTROL_ANSWER : Int := 4

def AST_CONTROL_BUSY : Int := 5

def AST_CONTROL_CONGESTION : Int := 8

def AST_CONTROL_PROGRESS : Int := 14

def AST_CONTROL_PROCEEDING : Int := 15

/-! ## pjlib string comparison

pj_strnicmp from pjlib compares at most len characters of two counted
strings case-insensitively; when the compared leading segments are equal and
fewer than len characters were compared, the result falls back to the
difference of the full lengths.  It is an external collaborator of the
module, embedded here because refer_progress_alloc branches on it. -/

/-- ASCII lowercase conversion, as performed by pj_tolower on the
characters of a header value. -/
def pj_tolower (c : Char) : Char :=
  if ('A' ≤ c ∧ c ≤ 'Z') then Char.ofNat (c.toNat + 32) else c

/-- Character-by-character loop of pj_strnicmp: the difference of the
first pair of characters that differ after lowering, or zero. -/
def strnicmpLoop : List Char → List Char → Int
  | a :: as, b :: bs =>
    let d : Int := (((pj_tolower a).toNat : Int)) - (((pj_tolower b).toNat : Int))
    if d = 0 then strnicmpLoop as bs else d
  | _, _ => 0

/-- Embedding of pj_strnicmp on counted strings: compare at most len
characters case-insensitively; if the compared characters are all equal
and fewer than len characters were available, fall back to the
difference of the lengths. -/
def pj_strnicmp (s1 s2 : List Char) (len : Nat) : Int :=
  let k := min (min s1.length s2.length) len
  let rc := strnicmpLoop (s1.take k) (s2.take k)
  if rc = 0 ∧ k < len then ((s1.length : Int)) - ((s2.length : Int)) else rc

/-! ## Data model -/

/-- Subscription states of pjsip_evsub_state relevant to this module. -/
inductive EvsubState
  | active
  | terminated
deriving DecidableEq

/-- Embedding of struct refer_progress_notification: an immutable
response-code and subscription-state pair (the reference to the progress
structure is carried separately by explicit state passing). -/
structure Notification where
  response : Nat
  state : EvsubState
deriving DecidableEq

/-- Embedding of struct refer_progress: sub is true while the
subscription handle is non-null, framehook is the frame hook identifier
(negative means unattached), subclass is the last received control
subclass (zero initially), modData is true while the evsub module data
still points at the progress structure, and subRef is true while the
subscription association holds its reference on the progress
structure. -/
structure ReferProgress where
  sub : Bool
  framehook : Int
  subclass : Int
  modData : Bool
  subRef : Bool
deriving DecidableEq

/-- Embedding of refer_progress_notification_alloc: ao2_alloc may fail,
which is modelled by the allocOk parameter; on success the notification
carries the given response code and subscription state. -/
def refer_progress_notification_alloc (allocOk : Bool) (response : Nat)
    (state : EvsubState) : Option Notification :=
  if allocOk then some ⟨response, state⟩ else none

/-! ## Notification dispatcher -/

/-- Observable steps taken by refer_progress_notify, in order.  The
constructor detachFramehook stands for ast_framehook_detach; it is part
of the action vocabulary so that its absence from a trace is a
statement about the source, which never calls ast_framehook_detach
inside refer_progress_notify. -/
inductive NotifyAction
  | dlgIncLock
  | clearModData
  | dlgDecLock
  | releaseSubRef
  | detachFramehook
  | sendNotify (response : Nat) (state : EvsubState)
deriving DecidableEq

/-- Embedding of refer_progress_notify.  The subscription pointer is
saved before the termination handling, exactly as the source saves it
in a local variable; if it is null the function is a no-op.  For a
TERMINATED notification the dispatcher locks the dialog, clears the
evsub module data, unlocks, drops the reference the subscription held,
and nulls the stored subscription handle, all before attempting the
send.  xferNotifyOk models success of pjsip_xfer_notify; on failure no
request is sent.  The result is the updated progress structure and the
trace of actions performed. -/
def refer_progress_notify (p : ReferProgress) (n : Notification)
    (xferNotifyOk : Bool) : ReferProgress × List NotifyAction :=
  if p.sub = false then (p, [])
  else
    let terminating := n.state = EvsubState.terminated
    let p1 : ReferProgress :=
      if terminating then
        { p with modData := false, subRef := false, sub := false }
      else p
    let acts1 : List NotifyAction :=
      if terminating then
        [NotifyAction.dlgIncLock, NotifyAction.clearModData,
         NotifyAction.dlgDecLock, NotifyAction.releaseSubRef]
      else []
    if xferNotifyOk then
      (p1, acts1 ++ [NotifyAction.sendNotify n.response n.state])
    else (p1, acts1)

/-! ## Progress frame hook -/

/-- Frames observed by the frame hook, reduced to what the hook
inspects: voice frames, control frames with their subclass, and any
other frame type. -/
inductive Frame
  | voice
  | control (subclass : Int)
  | other
deriving DecidableEq

/-- Frame hook events: the hook only reacts to write events. -/
inductive FramehookEvent
  | write
  | read
deriving DecidableEq

/-- Result of one invocation of the frame hook: the updated progress
structure, the notification allocated and pushed to the serializer (if
any), and whether the hook detached itself from the channel. -/
structure FramehookResult where
  progress : ReferProgress
  notification : Option Notification
  detached : Bool
deriving DecidableEq

/-- Embedding of refer_progress_framehook.  Null frames and non-write
events are ignored.  A voice frame while the recorded subclass is zero
allocates a terminal 200 notification.  A control frame records its
subclass and maps RING and RINGING to 180 active, BUSY to 486
terminated, CONGESTION to 503 terminated, PROGRESS to 183 active,
PROCEEDING to 100 active and ANSWER to 200 terminated; any other
subclass allocates nothing.  An allocated notification is pushed to the
serializer, and when its state is terminated the hook detaches itself
from the channel.  allocOk models success of the notification
allocation. -/
def refer_progress_framehook (p : ReferProgress) (f : Option Frame)
    (event : FramehookEvent) (allocOk : Bool) : FramehookResult :=
  match f, event with
  | some fr, FramehookEvent.write =>
    let p1 : ReferProgress :=
      match fr with
      | Frame.control sc => { p with subclass := sc }
      | _ => p
    let notification : Option Notification :=
      match fr with
      | Frame.voice =>
        if p.subclass = 0 then
          refer_progress_notification_alloc allocOk 200 EvsubState.terminated
        else none
      | Frame.control sc =>
        if sc = AST_CONTROL_RING ∨ sc = AST_CONTROL_RINGING then
          refer_progress_notification_alloc allocOk 180 EvsubState.active
        else if sc = AST_CONTROL_BUSY then
          refer_progress_notification_alloc allocOk 486 EvsubState.terminated
        else if sc = AST_CONTROL_CONGESTION then
          refer_progress_notification_alloc allocOk 503 EvsubState.terminated
        else if sc = AST_CONTROL_PROGRESS then
          refer_progress_notification_alloc allocOk 183 EvsubState.active
        else if sc = AST_CONTROL_PROCEEDING then
          refer_progress_notification_alloc allocOk 100 EvsubState.active
        else if sc = AST_CONTROL_ANSWER then
          refer_progress_notification_alloc allocOk 200 EvsubState.terminated
        else none
      | Frame.other => none
    match notification with
    | some n =>
      ⟨p1, some n, decide (n.state = EvsubState.terminated)⟩
    | none => ⟨p1, none, false⟩
  | _, _ => ⟨p, none, false⟩

/-! ## Progress monitor allocation -/

/-- Opt-out test of refer_progress_alloc: true exactly when a Refer-Sub
header is present and pj_strnicmp of its value against the four
characters of true is nonzero. -/
def referSubOptOut (referSub : Option (List Char)) : Bool :=
  match referSub with
  | some v => decide (pj_strnicmp v ("true".toList) 4 ≠ 0)
  | none => false

/-- Progress structure as set up by refer_progress_alloc on success:
frame hook unattached, no subclass recorded yet, subscription created
and associated with the structure (module data set, reference held by
the association). -/
def initialProgress : ReferProgress :=
  { sub := true, framehook := -1, subclass := 0, modData := true, subRef := true }

/-- Embedding of refer_progress_alloc.  When the Refer-Sub header opts
out, the function succeeds without creating a progress structure.
Otherwise the structure, its serializer and the implicit subscription
are created; allocOk collapses the three fallible collaborator calls
(ao2_alloc, ast_sip_create_serializer, pjsip_xfer_create_uas), whose
failure makes the function return an error. -/
def refer_progress_alloc (referSub : Option (List Char)) (allocOk : Bool) :
    Except Unit (Option ReferProgress) :=
  if referSubOptOut referSub then Except.ok none
  else if allocOk then Except.ok (some initialProgress) else Except.error ()

/-- Predicate on the result of refer_progress_alloc: a progress
subscription was actually created. -/
def progressCreated (r : Except Unit (Option ReferProgress)) : Bool :=
  match r with
  | Except.ok (some _) => true
  | _ => false

/-- Routing context selection shared by the attended and blind REFER
handlers: the TRANSFER_CONTEXT channel variable when set and nonempty
(none models an unset variable or a null channel), the endpoint
context otherwise, mirroring the ast_strlen_zero fallback in the
source. -/
def transfer_context (tc : Option String) (endpointContext : String) : String :=
  match tc with
  | none => endpointContext
  | some c => if c = "" then endpointContext else c

/-! ## Attended transfer executor -/

/-- Outcomes of the bridging primitives ast_bridge_transfer_attended and
ast_bridge_transfer_blind. -/
inductive BridgeTransferResult
  | invalid
  | notPermitted
  | fail
  | success
deriving DecidableEq

/-- Result of the attended transfer task refer_attended: the response
code, whether ast_sip_session_defer_termination was called on the
transferring session, and the terminal notification dispatched through
refer_progress_notify (if any). -/
structure ReferAttendedResult where
  response : Nat
  deferredTermination : Bool
  notification : Option Notification
deriving DecidableEq

/-- Embedding of the task body refer_attended.  The bridge outcome is
mapped to a response code; on success the transferring session defers
its termination.  When a progress structure is attached to the task and
the response is nonzero, a terminal notification carrying the response
is allocated and dispatched.  allocOk models the notification
allocation. -/
def refer_attended (hasProgress : Bool) (bridgeResult : BridgeTransferResult)
    (allocOk : Bool) : ReferAttendedResult :=
  let response : Nat :=
    match bridgeResult with
    | BridgeTransferResult.invalid => 400
    | BridgeTransferResult.notPermitted => 403
    | BridgeTransferResult.fail => 500
    | BridgeTransferResult.success => 200
  let notification : Option Notification :=
    if hasProgress ∧ response ≠ 0 then
      refer_progress_notification_alloc allocOk response EvsubState.terminated
    else none
  ⟨response, decide (bridgeResult = BridgeTransferResult.success), notification⟩

/-! ## Incoming attended REFER handler -/

/-- Result of refer_incoming_attended_request: the response code handed
back to the caller, and the serializer (identified by a number) onto
which a refer_attended task was pushed, if one was pushed.  The
deferredTermination flag covers the remote branch, which performs a
blind transfer itself. -/
structure AttendedRequestResult where
  code : Nat
  pushedTo : Option Nat
  deferredTermination : Bool
deriving DecidableEq

/-- Embedding of refer_incoming_attended_request.  Serializers are
identified by numbers: requesterSerializer belongs to the session the
REFER arrived on, targetSerializer to the session found through the
Replaces parameter.  When the Replaces parameter does not parse the
request is rejected with 400.  When the replaced dialog is local: a
missing session yields 603, a failed task allocation or a failed push
yields 500, and otherwise the refer_attended task is pushed onto the
target serializer and 200 is returned.  When the dialog is not local
the handler performs a blind transfer to the external_replaces
extension in the transfer context (the TRANSFER_CONTEXT channel
variable when nonempty, the endpoint context otherwise), rejecting with
404 when that extension does not exist. -/
def refer_incoming_attended_request (requesterSerializer targetSerializer : Nat)
    (replacesParseOk dialogFound otherSessionExists attendedAllocOk pushOk : Bool)
    (transferContextVar : Option String) (endpointContext : String)
    (exists_extension : String → String → Bool)
    (bridgeResult : BridgeTransferResult) : AttendedRequestResult :=
  if replacesParseOk = false then ⟨400, none, false⟩
  else if dialogFound then
    if otherSessionExists = false then ⟨603, none, false⟩
    else if attendedAllocOk = false then ⟨500, none, false⟩
    else if pushOk = false then ⟨500, none, false⟩
    else ⟨200, some targetSerializer, false⟩
  else
    let context : String := transfer_context transferContextVar endpointContext
    if exists_extension context ("external_replaces") = false then ⟨404, none, false⟩
    else
      match bridgeResult with
      | BridgeTransferResult.invalid => ⟨400, none, false⟩
      | BridgeTransferResult.notPermitted => ⟨403, none, false⟩
      | BridgeTransferResult.fail => ⟨500, none, false⟩
      | BridgeTransferResult.success => ⟨200, none, true⟩

/-! ## Incoming blind REFER handler -/

/-- Result of refer_incoming_blind_request: the response code, the
routing context that was used, whether ast_bridge_transfer_blind was
invoked, and whether the session deferred its termination. -/
structure BlindRequestResult where
  code : Nat
  contextUsed : String
  bridgingInvoked : Bool
  deferredTermination : Bool
deriving DecidableEq

/-- Embedding of refer_incoming_blind_request.  The routing context is
the TRANSFER_CONTEXT channel variable when set and nonempty (none
models an unset variable or a null channel), the endpoint context
otherwise.  When the user portion of the target URI does not exist as
an extension in that context the request is rejected with 404 before
the bridging primitive is invoked; otherwise the blind transfer runs
and its outcome is mapped exactly as in the attended path, deferring
termination on success. -/
def refer_incoming_blind_request (transferContextVar : Option String)
    (endpointContext : String) (targetUser : String)
    (exists_extension : String → String → Bool)
    (bridgeResult : BridgeTransferResult) : BlindRequestResult :=
  let context : String := transfer_context transferContextVar endpointContext
  if exists_extension context targetUser = false then ⟨404, context, false, false⟩
  else
    match bridgeResult with
    | BridgeTransferResult.invalid => ⟨400, context, true, false⟩
    | BridgeTransferResult.notPermitted => ⟨403, context, true, false⟩
    | BridgeTransferResult.fail => ⟨500, context, true, false⟩
    | BridgeTransferResult.success => ⟨200, context, true, true⟩

/-! ## Blind transfer completion callback -/

/-- Result of refer_blind_callback: the updated progress structure (its
framehook field holds the attachment result), the terminal notification
dispatched inline through refer_progress_notify on attachment failure,
whether the reference taken for the frame hook was released, and the
channel variables set on the new leg, in order. -/
structure BlindCallbackResult where
  progress : ReferProgress
  notification : Option Notification
  hookRefReleased : Bool
  channelVars : List (String × String)
deriving DecidableEq

/-- Embedding of refer_blind_callback.  The new leg is tagged with
SIPTRANSFER; when a progress structure exists a frame hook is attached
(attachResult is the value returned by ast_framehook_attach, negative
on failure).  On attachment failure a terminal notification with
response 200 is allocated and dispatched immediately and the reference
taken for the hook is released.  The remaining channel variables record
the referring context and the carried-over headers when present. -/
def refer_blind_callback (hasProgress : Bool) (p : ReferProgress)
    (attachResult : Int) (allocOk : Bool) (context : String)
    (referredBy replacesHdr referToHdr : Option String) : BlindCallbackResult :=
  let vars0 : List (String × String) := [("SIPTRANSFER", "yes")]
  let hookPart : ReferProgress × Option Notification × Bool :=
    if hasProgress then
      if attachResult < 0 then
        ({ p with framehook := attachResult },
         refer_progress_notification_alloc allocOk 200 EvsubState.terminated,
         true)
      else ({ p with framehook := attachResult }, none, false)
    else (p, none, false)
  let vars1 := vars0 ++ (if context = "" then [] else [("SIPREFERRINGCONTEXT", context)])
  let vars2 := vars1 ++
    (match referredBy with
     | some v => [("SIPREFERREDBYHDR", v)]
     | none => [])
  let vars3 := vars2 ++
    (match replacesHdr with
     | some v => [("SIPREPLACESHDR", v)]
     | none => [])
  let vars4 := vars3 ++
    (match referToHdr with
     | some v => [("SIPREFERTOHDR", v)]
     | none => [])
  ⟨hookPart.1, hookPart.2.1, hookPart.2.2, vars4⟩

/-! ## Incoming REFER request handler -/

/-- Outward-visible actions of refer_incoming_refer_request: an
immediate final SIP response (the flag records whether it carries a
Refer-Sub false header) or a NOTIFY dispatched on the progress
subscription. -/
inductive OutcomeAction
  | respond (code : Nat) (referSubFalse : Bool)
  | notify (n : Notification)
deriving DecidableEq

/-- Embedding of the tail of refer_incoming_refer_request, after the
resolver produced its response code.  Without a progress structure
exactly one immediate final response is sent: through
pjsip_dlg_create_response and pjsip_dlg_send_response with a Refer-Sub
false header when the creation succeeds (createOk), through
pjsip_dlg_respond without that header otherwise.  With a progress
structure and a response other than 200, a terminal notification
carrying the response is allocated and dispatched; with a response of
200 nothing further is done here. -/
def refer_request_finish (progress : Option ReferProgress) (response : Nat)
    (createOk allocOk : Bool) : List OutcomeAction :=
  match progress with
  | none =>
    if createOk then [OutcomeAction.respond response true]
    else [OutcomeAction.respond response false]
  | some _ =>
    if response ≠ 200 then
      match refer_progress_notification_alloc allocOk response EvsubState.terminated with
      | some n => [OutcomeAction.notify n]
      | none => []
    else []

/-- Result of refer_incoming_refer_request: the outward actions, whether
the resolver (the attended or blind handler) was invoked, and whether a
progress subscription was created. -/
structure ReferRequestResult where
  actions : List OutcomeAction
  resolverInvoked : Bool
  progressCreatedFlag : Bool
deriving DecidableEq

/-- Embedding of refer_incoming_refer_request.  A missing Refer-To
header or an unparseable target is rejected with an immediate 400.  A
failure of refer_progress_alloc is rejected with an immediate 500 and
the resolver is never invoked.  Otherwise the resolver runs (its
response code is the resolverResponse parameter, produced by the
attended or blind handler) and the tail refer_request_finish delivers
the outcome. -/
def refer_incoming_refer_request (hasReferTo parseOk : Bool)
    (referSub : Option (List Char)) (progressAllocOk : Bool)
    (resolverResponse : Nat) (createOk notifAllocOk : Bool) : ReferRequestResult :=
  if hasReferTo = false then ⟨[OutcomeAction.respond 400 false], false, false⟩
  else if parseOk = false then ⟨[OutcomeAction.respond 400 false], false, false⟩
  else
    match refer_progress_alloc referSub progressAllocOk with
    | Except.error _ => ⟨[OutcomeAction.respond 500 false], false, false⟩
    | Except.ok progress =>
      ⟨refer_request_finish progress resolverResponse createOk notifAllocOk,
       true, progress.isSome⟩

/-- Number of immediate final responses in a list of actions. -/
def countResponses (l : List OutcomeAction) : Nat :=
  (l.filter fun a =>
    match a with
    | OutcomeAction.respond _ _ => true
    | _ => false).length

/-- Number of NOTIFY dispatches in a list of actions. -/
def countNotifies (l : List OutcomeAction) : Nat :=
  (l.filter fun a =>
    match a with
    | OutcomeAction.notify _ => true
    | _ => false).length

/-! ## Theorems -/

/-- C9: whenever the dispatcher refer_progress_notify runs for a monitor
whose subscription handle is already null, the call is a silent no-op:
no NOTIFY is constructed or sent and no monitor state is changed. -/
theorem refer_progress_notify_noop_when_sub_null :
    ∀ (p : ReferProgress) (n : Notification) (xferNotifyOk : Bool),
      p.sub = false →
      refer_progress_notify p n xferNotifyOk = (p, []) := by
  intro p n ok h
  simp [refer_progress_notify, h]

/-- Witness for C9 at a concrete monitor with a null subscription
handle. -/
theorem refer_progress_notify_noop_witness :
    refer_progress_notify ⟨false, 5, 0, true, true⟩
        ⟨486, EvsubState.terminated⟩ true = (⟨false, 5, 0, true, true⟩, []) :=
  refer_progress_notify_noop_when_sub_null _ _ _ rfl

/-- Concrete monitor with a live subscription and an attached frame
hook, used to exhibit the dispatcher behavior on terminal
notifications. -/
def progressWithHook : ReferProgress :=
  { sub := true, framehook := 5, subclass := 0, modData := true, subRef := true }

/-- C5 counterexample: processing a TERMINATED notification for a
monitor whose frame hook is attached leaves the hook attached; the
trace of refer_progress_notify contains no detach action, so the
dispatcher does not detach the signaling hook as the claim states. -/
theorem refer_progress_notify_no_detach_cex :
    ((refer_progress_notify progressWithHook ⟨503, EvsubState.terminated⟩ true).1.framehook = 5)
    ∧ (NotifyAction.detachFramehook ∉
        (refer_progress_notify progressWithHook ⟨503, EvsubState.terminated⟩ true).2) := by
  decide

/-- C5 amended: when the dispatcher processes a TERMINATED notification
for a monitor with a live subscription, it performs the terminal state
transition before attempting the send: it clears the subscription
association between taking and releasing the owning dialog lock, only
then releases the reference the subscription held, and only after all
of that attempts the send; the resulting monitor state is the same
whether or not the send succeeds.  The dispatcher does not detach the
signaling hook; the hook detaches itself. -/
theorem refer_progress_notify_terminated_transition :
    ∀ (p : ReferProgress) (n : Notification) (ok : Bool),
      p.sub = true → n.state = EvsubState.terminated →
      (refer_progress_notify p n ok).2 =
        [NotifyAction.dlgIncLock, NotifyAction.clearModData,
         NotifyAction.dlgDecLock, NotifyAction.releaseSubRef] ++
        (if ok then [NotifyAction.sendNotify n.response n.state] else [])
      ∧ (refer_progress_notify p n ok).1 =
          { p with modData := false, subRef := false, sub := false }
      ∧ (refer_progress_notify p n true).1 = (refer_progress_notify p n false).1
      ∧ NotifyAction.detachFramehook ∉ (refer_progress_notify p n ok).2 := by
  intro p n ok hsub hterm
  cases ok <;> simp [refer_progress_notify, hsub, hterm]

/-- Witness for the amended C5 at a concrete monitor and a concrete
terminal notification. -/
theorem refer_progress_notify_terminated_witness :
    (refer_progress_notify progressWithHook ⟨486, EvsubState.terminated⟩ false).2 =
      [NotifyAction.dlgIncLock, NotifyAction.clearModData,
       NotifyAction.dlgDecLock, NotifyAction.releaseSubRef]
    ∧ (refer_progress_notify progressWithHook ⟨486, EvsubState.terminated⟩ false).1 =
        { progressWithHook with modData := false, subRef := false, sub := false } := by
  have h := refer_progress_notify_terminated_transition progressWithHook
    ⟨486, EvsubState.terminated⟩ false rfl rfl
  exact ⟨by simpa using h.1, h.2.1⟩

/-- C3: for every frame written to a monitored leg the frame hook
produces exactly the claimed notifications: a voice frame while no
control subclass has been recorded yields terminal 200; RING and
RINGING yield provisional 180 active, PROGRESS 183 active, PROCEEDING
100 active; BUSY yields terminal 486, CONGESTION terminal 503, ANSWER
terminal 200; any other frame, subclass or event yields nothing; and
the hook detaches itself exactly when it produced a terminal
notification. -/
theorem framehook_signal_map :
    (∀ p : ReferProgress,
      (refer_progress_framehook p (some Frame.voice) FramehookEvent.write true).notification =
        (if p.subclass = 0 then some ⟨200, EvsubState.terminated⟩ else none))
    ∧ (∀ p : ReferProgress,
      (refer_progress_framehook p (some (Frame.control AST_CONTROL_RING))
        FramehookEvent.write true).notification = some ⟨180, EvsubState.active⟩)
    ∧ (∀ p : ReferProgress,
      (refer_progress_framehook p (some (Frame.control AST_CONTROL_RINGING))
        FramehookEvent.write true).notification = some ⟨180, EvsubState.active⟩)
    ∧ (∀ p : ReferProgress,
      (refer_progress_framehook p (some (Frame.control AST_CONTROL_PROGRESS))
        FramehookEvent.write true).notification = some ⟨183, EvsubState.active⟩)
    ∧ (∀ p : ReferProgress,
      (refer_progress_framehook p (some (Frame.control AST_CONTROL_PROCEEDING))
        FramehookEvent.write true).notification = some ⟨100, EvsubState.active⟩)
    ∧ (∀ p : ReferProgress,
      (refer_progress_framehook p (some (Frame.control AST_CONTROL_BUSY))
        FramehookEvent.write true).notification = some ⟨486, EvsubState.terminated⟩)
    ∧ (∀ p : ReferProgress,
      (refer_progress_framehook p (some (Frame.control AST_CONTROL_CONGESTION))
        FramehookEvent.write true).notification = some ⟨503, EvsubState.terminated⟩)
    ∧ (∀ p : ReferProgress,
      (refer_progress_framehook p (some (Frame.control AST_CONTROL_ANSWER))
        FramehookEvent.write true).notification = some ⟨200, EvsubState.terminated⟩)
    ∧ (∀ (p : ReferProgress) (sc : Int),
      sc ≠ 2 → sc ≠ 3 → sc ≠ 4 → sc ≠ 5 → sc ≠ 8 → sc ≠ 14 → sc ≠ 15 →
      (refer_progress_framehook p (some (Frame.control sc))
        FramehookEvent.write true).notification = none)
    ∧ (∀ p : ReferProgress,
      (refer_progress_framehook p (some Frame.other)
        FramehookEvent.write true).notification = none)
    ∧ (∀ (p : ReferProgress) (f : Option Frame) (allocOk : Bool),
      refer_progress_framehook p f FramehookEvent.read allocOk = ⟨p, none, false⟩)
    ∧ (∀ (p : ReferProgress) (event : FramehookEvent) (allocOk : Bool),
      refer_progress_framehook p none event allocOk = ⟨p, none, false⟩)
    ∧ (∀ (p : ReferProgress) (f : Option Frame) (event : FramehookEvent) (allocOk : Bool),
      ((refer_progress_framehook p f event allocOk).detached = true ↔
        ∃ n, (refer_progress_framehook p f event allocOk).notification = some n
          ∧ n.state = EvsubState.terminated)) := by
  refine ⟨?_, ?_, ?_, ?_, ?_, ?_, ?_, ?_, ?_, ?_, ?_, ?_, ?_⟩
  · intro p
    by_cases h : p.subclass = 0 <;>
      simp [refer_progress_framehook, refer_progress_notification_alloc, h]
  · intro p
    simp [refer_progress_framehook, refer_progress_notification_alloc, AST_CONTROL_RING]
  · intro p
    simp [refer_progress_framehook, refer_progress_notification_alloc, AST_CONTROL_RINGING]
  · intro p
    simp [refer_progress_framehook, refer_progress_notification_alloc,
      AST_CONTROL_PROGRESS, AST_CONTROL_RING, AST_CONTROL_RINGING, AST_CONTROL_BUSY,
      AST_CONTROL_CONGESTION]
  · intro p
    simp [refer_progress_framehook, refer_progress_notification_alloc,
      AST_CONTROL_PROCEEDING, AST_CONTROL_RING, AST_CONTROL_RINGING, AST_CONTROL_BUSY,
      AST_CONTROL_CONGESTION, AST_CONTROL_PROGRESS]
  · intro p
    simp [refer_progress_framehook, refer_progress_notification_alloc,
      AST_CONTROL_BUSY, AST_CONTROL_RING, AST_CONTROL_RINGING]
  · intro p
    simp [refer_progress_framehook, refer_progress_notification_alloc,
      AST_CONTROL_CONGESTION, AST_CONTROL_RING, AST_CONTROL_RINGING, AST_CONTROL_BUSY]
  · intro p
    simp [refer_progress_framehook, refer_progress_notification_alloc,
      AST_CONTROL_ANSWER, AST_CONTROL_RING, AST_CONTROL_RINGING, AST_CONTROL_BUSY,
      AST_CONTROL_CONGESTION, AST_CONTROL_PROGRESS, AST_CONTROL_PROCEEDING]
  · intro p sc h2 h3 h4 h5 h8 h14 h15
    simp [refer_progress_framehook, refer_progress_notification_alloc,
      AST_CONTROL_RING, AST_CONTROL_RINGING, AST_CONTROL_BUSY, AST_CONTROL_CONGESTION,
      AST_CONTROL_PROGRESS, AST_CONTROL_PROCEEDING, AST_CONTROL_ANSWER,
      h2, h3, h4, h5, h8, h14, h15]
  · intro p
    simp [refer_progress_framehook]
  · intro p f allocOk
    cases f <;> simp [refer_progress_framehook]
  · intro p event allocOk
    cases event <;> simp [refer_progress_framehook]
  · intro p f event allocOk
    cases f with
    | none => cases event <;> simp [refer_progress_framehook]
    | some fr =>
      cases event with
      | read => simp [refer_progress_framehook]
      | write =>
        cases fr with
        | voice =>
          by_cases h : p.subclass = 0 <;>
            cases allocOk <;>
              simp [refer_progress_framehook, refer_progress_notification_alloc, h]
        | control sc =>
          cases allocOk <;>
            · simp only [refer_progress_framehook, refer_progress_notification_alloc]
              split_ifs <;> simp
        | other => simp [refer_progress_framehook]

/-- Witness for C3: a concrete unrecognized control subclass produces no
notification. -/
theorem framehook_signal_map_witness :
    (refer_progress_framehook progressWithHook (some (Frame.control 7))
      FramehookEvent.write true).notification = none :=
  framehook_signal_map.2.2.2.2.2.2.2.2.1 progressWithHook 7
    (by decide) (by decide) (by decide) (by decide) (by decide) (by decide) (by decide)

/-- C4 counterexample: two consecutive RINGING control frames each
produce a 180 notification; the second, duplicate frame is re-reported
even though the last-subclass field already holds RINGING, refuting the
claim that a duplicate of the last-seen subclass produces no second
notification. -/
theorem framehook_duplicate_reported_cex :
    ((refer_progress_framehook progressWithHook
        (some (Frame.control AST_CONTROL_RINGING)) FramehookEvent.write true).notification =
      some ⟨180, EvsubState.active⟩)
    ∧ ((refer_progress_framehook progressWithHook
        (some (Frame.control AST_CONTROL_RINGING)) FramehookEvent.write true).progress.subclass =
      AST_CONTROL_RINGING)
    ∧ ((refer_progress_framehook
        (refer_progress_framehook progressWithHook
          (some (Frame.control AST_CONTROL_RINGING)) FramehookEvent.write true).progress
        (some (Frame.control AST_CONTROL_RINGING)) FramehookEvent.write true).notification =
      some ⟨180, EvsubState.active⟩) := by
  decide

/-- C4 amended: the last-subclass field is updated on every control
frame, but its only effect is to suppress the implicit voice-frame
answered notification once any control subclass has been recorded; the
notification produced for a control frame does not depend on the
previously recorded subclass, so a repeated control subclass is
re-reported identically each time. -/
theorem framehook_subclass_role :
    ∀ (p q : ReferProgress) (sc : Int),
      ((refer_progress_framehook p (some (Frame.control sc))
          FramehookEvent.write true).progress.subclass = sc)
      ∧ ((refer_progress_framehook p (some (Frame.control sc))
          FramehookEvent.write true).notification =
        (refer_progress_framehook q (some (Frame.control sc))
          FramehookEvent.write true).notification)
      ∧ ((refer_progress_framehook p (some Frame.voice)
          FramehookEvent.write true).notification =
        (if p.subclass = 0 then some ⟨200, EvsubState.terminated⟩ else none)) := by
  intro p q sc
  refine ⟨?_, ?_, ?_⟩
  · simp only [refer_progress_framehook, refer_progress_notification_alloc]
    split_ifs <;> rfl
  · simp only [refer_progress_framehook, refer_progress_notification_alloc]
    split_ifs <;> rfl
  · by_cases h : p.subclass = 0 <;>
      simp [refer_progress_framehook, refer_progress_notification_alloc, h]

/-- C1: refer_incoming_refer_request delivers exactly one definitive
outcome.  Without a progress monitor the tail sends exactly one
immediate final response and no notification, and when the response
creation succeeds that response carries a Refer-Sub false header; with
a monitor and a resolver code other than 200 it sends exactly one
terminal notification carrying that code and no immediate response; no
combination of inputs produces both a response and a notification; and
with no monitor the attended executor and the blind callback dispatch
no notification either. -/
theorem refer_request_single_outcome :
    (∀ (response : Nat) (createOk allocOk : Bool),
      countResponses (refer_request_finish none response createOk allocOk) = 1
      ∧ countNotifies (refer_request_finish none response createOk allocOk) = 0
      ∧ (createOk = true → refer_request_finish none response createOk allocOk =
          [OutcomeAction.respond response true]))
    ∧ (∀ (p : ReferProgress) (response : Nat), response ≠ 200 →
        refer_request_finish (some p) response true true =
          [OutcomeAction.notify ⟨response, EvsubState.terminated⟩])
    ∧ (∀ (progress : Option ReferProgress) (response : Nat) (createOk allocOk : Bool),
        ¬(1 ≤ countResponses (refer_request_finish progress response createOk allocOk)
          ∧ 1 ≤ countNotifies (refer_request_finish progress response createOk allocOk)))
    ∧ (∀ (br : BridgeTransferResult) (allocOk : Bool),
        (refer_attended false br allocOk).notification = none)
    ∧ (∀ (p : ReferProgress) (attachResult : Int) (allocOk : Bool) (context : String)
        (rb rh rt : Option String),
        (refer_blind_callback false p attachResult allocOk context rb rh rt).notification =
          none) := by
  refine ⟨?_, ?_, ?_, ?_, ?_⟩
  · intro response createOk allocOk
    cases createOk <;>
      simp [refer_request_finish, countResponses, countNotifies]
  · intro p response h
    simp [refer_request_finish, refer_progress_notification_alloc, h]
  · intro progress response createOk allocOk
    cases progress with
    | none =>
      cases createOk <;>
        simp [refer_request_finish, countResponses, countNotifies]
    | some p =>
      by_cases h : response = 200 <;>
        cases allocOk <;>
          simp [refer_request_finish, refer_progress_notification_alloc,
            countResponses, countNotifies, h]
  · intro br allocOk
    simp [refer_attended]
  · intro p attachResult allocOk context rb rh rt
    simp [refer_blind_callback]

/-- Witness for C1 at concrete inputs: a monitorless request answering
486 sends the single immediate response with the Refer-Sub false
header, and a monitored request with resolver code 486 dispatches the
single terminal notification. -/
theorem refer_request_single_outcome_witness :
    refer_request_finish none 486 true true = [OutcomeAction.respond 486 true]
    ∧ refer_request_finish (some initialProgress) 486 true true =
        [OutcomeAction.notify ⟨486, EvsubState.terminated⟩] :=
  ⟨(refer_request_single_outcome.1 486 true true).2.2 rfl,
   refer_request_single_outcome.2.1 initialProgress 486 (by decide)⟩

/-- C2: the attended executor maps the four bridge outcomes to 400, 403,
500 and 200, defers the transferring session termination exactly on
success, and with a monitor present dispatches one terminal
notification carrying the mapped code for every outcome; and the
attended request handler only ever pushes the refer_attended task onto
the target session serializer, never the requester serializer. -/
theorem attended_transfer_contract :
    (∀ (hasProgress : Bool) (br : BridgeTransferResult),
      (refer_attended hasProgress br true).response =
        (match br with
         | BridgeTransferResult.invalid => 400
         | BridgeTransferResult.notPermitted => 403
         | BridgeTransferResult.fail => 500
         | BridgeTransferResult.success => 200)
      ∧ ((refer_attended hasProgress br true).deferredTermination = true ↔
          br = BridgeTransferResult.success)
      ∧ (hasProgress = true →
          (refer_attended hasProgress br true).notification =
            some ⟨(refer_attended hasProgress br true).response, EvsubState.terminated⟩))
    ∧ (∀ (reqSer tgtSer : Nat) (rp df oe aa po : Bool) (tc : Option String)
        (ec : String) (ex : String → String → Bool) (br : BridgeTransferResult),
        (refer_incoming_attended_request reqSer tgtSer rp df oe aa po tc ec ex br).pushedTo = none
        ∨ (refer_incoming_attended_request reqSer tgtSer rp df oe aa po tc ec ex br).pushedTo =
            some tgtSer)
    ∧ (∀ (reqSer tgtSer : Nat) (rp df oe aa po : Bool) (tc : Option String)
        (ec : String) (ex : String → String → Bool) (br : BridgeTransferResult),
        reqSer ≠ tgtSer →
        (refer_incoming_attended_request reqSer tgtSer rp df oe aa po tc ec ex br).pushedTo ≠
          some reqSer) := by
  have push_cases : ∀ (reqSer tgtSer : Nat) (rp df oe aa po : Bool) (tc : Option String)
      (ec : String) (ex : String → String → Bool) (br : BridgeTransferResult),
      (refer_incoming_attended_request reqSer tgtSer rp df oe aa po tc ec ex br).pushedTo = none
      ∨ (refer_incoming_attended_request reqSer tgtSer rp df oe aa po tc ec ex br).pushedTo =
          some tgtSer := by
    intro reqSer tgtSer rp df oe aa po tc ec ex br
    simp only [refer_incoming_attended_request]
    split_ifs <;> first
      | exact Or.inl rfl
      | exact Or.inr rfl
      | (cases br <;> simp)
  refine ⟨?_, push_cases, ?_⟩
  · intro hasProgress br
    cases hasProgress <;> cases br <;>
      simp [refer_attended, refer_progress_notification_alloc]
  · intro reqSer tgtSer rp df oe aa po tc ec ex br hne
    rcases push_cases reqSer tgtSer rp df oe aa po tc ec ex br with h | h <;>
      simp [h]
    intro hEq
    exact hne hEq.symm

/-- Witness for C2 at concrete inputs: a failed bridge outcome with a
monitor yields response 500, no deferred termination and a terminal 500
notification, and a handler run with distinct serializers pushes the
task to the target serializer only. -/
theorem attended_transfer_contract_witness :
    (refer_attended true BridgeTransferResult.fail true).notification =
      some ⟨500, EvsubState.terminated⟩
    ∧ (refer_incoming_attended_request 1 2 true true true true true none ""
        (fun _ _ => true) BridgeTransferResult.success).pushedTo ≠ some 1 := by
  constructor
  · have h := (attended_transfer_contract.1 true BridgeTransferResult.fail).2.2 rfl
    simpa [attended_transfer_contract, refer_attended] using h
  · exact attended_transfer_contract.2.2 1 2 true true true true true none ""
      (fun _ _ => true) BridgeTransferResult.success (by decide)

/-- C6 counterexample: at a concrete request whose Refer-Sub header is
absent and whose monitor construction fails, refer_incoming_refer_request
responds 500 immediately and never invokes the resolver, refuting the
claim that the transfer is still resolved and executed without a
monitor. -/
theorem progress_alloc_failure_aborts_cex :
    (refer_incoming_refer_request true true none false 200 true true).resolverInvoked = false
    ∧ (refer_incoming_refer_request true true none false 200 true true).actions =
        [OutcomeAction.respond 500 false] := by
  decide

/-- C6 amended: a failure to construct the Progress Monitor aborts the
transfer attempt: when refer_progress_alloc fails the request is
rejected with an immediate 500 and the resolver is never invoked.  The
transfer proceeds without a monitor only when the Refer-Sub header opts
out of monitoring, in which case monitor construction is skipped, the
resolver runs and no subscription exists. -/
theorem progress_alloc_failure_aborts :
    ∀ (referSub : Option (List Char)) (resolverResponse : Nat) (createOk notifAllocOk : Bool),
      (refer_progress_alloc referSub false = Except.error () →
        refer_incoming_refer_request true true referSub false resolverResponse createOk
            notifAllocOk =
          ⟨[OutcomeAction.respond 500 false], false, false⟩)
      ∧ (referSubOptOut referSub = true →
        ∀ progressAllocOk : Bool,
          (refer_incoming_refer_request true true referSub progressAllocOk resolverResponse
            createOk notifAllocOk).resolverInvoked = true
          ∧ (refer_incoming_refer_request true true referSub progressAllocOk resolverResponse
              createOk notifAllocOk).progressCreatedFlag = false) := by
  intro referSub resolverResponse createOk notifAllocOk
  constructor
  · intro h
    simp [refer_incoming_refer_request, h]
  · intro hopt progressAllocOk
    simp [refer_incoming_refer_request, refer_progress_alloc, hopt]

/-- Witness for the amended C6: with the Refer-Sub value false the
resolver runs without a monitor, and with no Refer-Sub header a failed
construction aborts with the immediate 500. -/
theorem progress_alloc_failure_aborts_witness :
    (refer_incoming_refer_request true true (some ("false".toList)) false 200 true
        true).resolverInvoked = true
    ∧ refer_incoming_refer_request true true none false 200 true true =
        ⟨[OutcomeAction.respond 500 false], false, false⟩ :=
  ⟨((progress_alloc_failure_aborts (some ("false".toList)) 200 true true).2
      (by decide) false).1,
   (progress_alloc_failure_aborts none 200 true true).1 rfl⟩

/-- C7: the blind transfer handler uses the TRANSFER_CONTEXT channel
variable as routing context when it is set and nonempty, the endpoint
context otherwise; and when the user portion of the target URI does not
exist as an extension in that context the request is rejected with 404
and the blind bridging primitive is never invoked. -/
theorem blind_transfer_context_and_lookup :
    ∀ (tc : Option String) (ec user : String) (ex : String → String → Bool)
      (br : BridgeTransferResult),
      (∀ c : String, tc = some c → c ≠ "" →
        (refer_incoming_blind_request tc ec user ex br).contextUsed = c)
      ∧ ((tc = none ∨ tc = some "") →
        (refer_incoming_blind_request tc ec user ex br).contextUsed = ec)
      ∧ (ex (refer_incoming_blind_request tc ec user ex br).contextUsed user = false →
        (refer_incoming_blind_request tc ec user ex br).code = 404
        ∧ (refer_incoming_blind_request tc ec user ex br).bridgingInvoked = false) := by
  intro tc ec user ex br
  have hctx : (refer_incoming_blind_request tc ec user ex br).contextUsed =
      transfer_context tc ec := by
    simp only [refer_incoming_blind_request]
    split_ifs <;> first | rfl | (cases br <;> rfl)
  refine ⟨?_, ?_, ?_⟩
  · intro c hc hne
    rw [hctx, hc]
    simp [transfer_context, hne]
  · intro h
    rcases h with h | h <;> rw [hctx, h] <;> simp [transfer_context]
  · intro hmiss
    rw [hctx] at hmiss
    simp only [refer_incoming_blind_request]
    simp [hmiss]

/-- Witness for C7 at concrete inputs: an explicit transfer context is
used, and a missing extension yields 404 without invoking the bridging
primitive. -/
theorem blind_transfer_context_and_lookup_witness :
    (refer_incoming_blind_request (some ("special")) ("default") ("1000")
        (fun _ _ => false) BridgeTransferResult.success).contextUsed = ("special" : String)
    ∧ (refer_incoming_blind_request (some ("special")) ("default") ("1000")
        (fun _ _ => false) BridgeTransferResult.success).code = 404
    ∧ (refer_incoming_blind_request (some ("special")) ("default") ("1000")
        (fun _ _ => false) BridgeTransferResult.success).bridgingInvoked = false := by
  have h := blind_transfer_context_and_lookup (some ("special")) ("default") ("1000")
    (fun _ _ => false) BridgeTransferResult.success
  exact ⟨h.1 ("special") rfl (by decide), (h.2.2 rfl).1, (h.2.2 rfl).2⟩

/-- C8: in the blind transfer completion callback, when a monitor exists
and attaching the frame hook fails, one terminal notification with
success code 200 is dispatched immediately and the reference taken on
the monitor for the hook is released. -/
theorem blind_callback_attach_failure_fails_open :
    ∀ (p : ReferProgress) (attachResult : Int) (context : String)
      (rb rh rt : Option String),
      attachResult < 0 →
      (refer_blind_callback true p attachResult true context rb rh rt).notification =
        some ⟨200, EvsubState.terminated⟩
      ∧ (refer_blind_callback true p attachResult true context rb rh rt).hookRefReleased =
          true := by
  intro p attachResult context rb rh rt h
  constructor <;>
    simp [refer_blind_callback, refer_progress_notification_alloc, h]

/-- Witness for C8 at a concrete failed attachment. -/
theorem blind_callback_attach_failure_witness :
    (refer_blind_callback true initialProgress (-1) true ("default") none none
        none).notification = some ⟨200, EvsubState.terminated⟩
    ∧ (refer_blind_callback true initialProgress (-1) true ("default") none none
        none).hookRefReleased = true :=
  blind_callback_attach_failure_fails_open initialProgress (-1) ("default") none none none
    (by decide)

/-- Characters are determined by their numeric codepoint. -/
theorem char_toNat_inj {a b : Char} (h : a.toNat = b.toNat) : a = b :=
  Char.ext (UInt32.toNat.inj h)

/-- The comparison loop of pj_strnicmp returns zero on equal-length
lists exactly when the lists agree after lowering. -/
theorem strnicmpLoop_eq_zero :
    ∀ (l1 l2 : List Char), l1.length = l2.length →
      (strnicmpLoop l1 l2 = 0 ↔ l1.map pj_tolower = l2.map pj_tolower) := by
  intro l1
  induction l1 with
  | nil =>
    intro l2 h
    cases l2 with
    | nil => simp [strnicmpLoop]
    | cons b bs => simp at h
  | cons a as ih =>
    intro l2 h
    cases l2 with
    | nil => simp at h
    | cons b bs =>
      simp only [List.length_cons, Nat.add_right_cancel_iff] at h
      by_cases hab : pj_tolower a = pj_tolower b
      · have hd : (((pj_tolower a).toNat : Int)) - (((pj_tolower b).toNat : Int)) = 0 := by
          rw [hab]; ring
        simp only [strnicmpLoop]
        rw [if_pos hd]
        simp [hab, ih bs h]
      · have hd : ¬((((pj_tolower a).toNat : Int)) - (((pj_tolower b).toNat : Int)) = 0) := by
          intro h0
          refine hab (char_toNat_inj ?_)
          show (pj_tolower a).toNat = (pj_tolower b).toNat
          omega
        simp only [strnicmpLoop]
        rw [if_neg hd]
        simp [hab, hd]

/-- pj_strnicmp of a header value against the four characters of true
is zero exactly when the value has at least four characters and its
first four lower to the characters of true. -/
theorem pj_strnicmp_true_eq_zero (v : List Char) :
    pj_strnicmp v (['t', 'r', 'u', 'e']) 4 = 0 ↔
      4 ≤ v.length ∧ (v.take 4).map pj_tolower = ['t', 'r', 'u', 'e'] := by
  have hlen4 : (['t', 'r', 'u', 'e'] : List Char).length = 4 := rfl
  rcases Nat.lt_or_ge v.length 4 with h | h
  · have hk : min (min v.length (['t', 'r', 'u', 'e'] : List Char).length) 4 = v.length := by
      rw [hlen4]
      omega
    simp only [pj_strnicmp, hk]
    have hv : List.take v.length v = v := by simp
    rw [hv]
    constructor
    · intro hz
      by_cases hrc : strnicmpLoop v (List.take v.length (['t', 'r', 'u', 'e'])) = 0
      · rw [if_pos ⟨hrc, by omega⟩] at hz
        rw [hlen4] at hz
        omega
      · rw [if_neg (fun hc => hrc hc.1)] at hz
        exact absurd hz hrc
    · intro hc
      omega
  · have hk : min (min v.length (['t', 'r', 'u', 'e'] : List Char).length) 4 = 4 := by
      rw [hlen4]
      omega
    simp only [pj_strnicmp, hk]
    rw [if_neg (fun hc => by omega)]
    have htake : List.take 4 (['t', 'r', 'u', 'e'] : List Char) = ['t', 'r', 'u', 'e'] := rfl
    rw [htake]
    have hlen : (v.take 4).length = (['t', 'r', 'u', 'e'] : List Char).length := by
      rw [hlen4, List.length_take]
      omega
    have hmap : (['t', 'r', 'u', 'e'] : List Char).map pj_tolower = ['t', 'r', 'u', 'e'] := by
      decide
    constructor
    · intro hz
      have hres := (strnicmpLoop_eq_zero (v.take 4) (['t', 'r', 'u', 'e']) hlen).mp hz
      rw [hmap] at hres
      exact ⟨h, hres⟩
    · intro hc
      exact (strnicmpLoop_eq_zero (v.take 4) (['t', 'r', 'u', 'e']) hlen).mpr
        (by rw [hmap]; exact hc.2)

/-- C10: refer_progress_alloc creates a progress subscription exactly
when the Refer-Sub header is absent or the first four characters of its
value case-insensitively equal true; in particular the values truefoo
and TRUE still enable monitoring while the value false suppresses
it. -/
theorem progress_subscription_gate :
    (∀ referSub : Option (List Char),
      progressCreated (refer_progress_alloc referSub true) = true ↔
        (referSub = none ∨ ∃ v, referSub = some v ∧ 4 ≤ v.length
          ∧ (v.take 4).map pj_tolower = ['t', 'r', 'u', 'e']))
    ∧ progressCreated (refer_progress_alloc (some ("truefoo".toList)) true) = true
    ∧ progressCreated (refer_progress_alloc (some ("TRUE".toList)) true) = true
    ∧ progressCreated (refer_progress_alloc (some ("false".toList)) true) = false := by
  refine ⟨?_, by decide, by decide, by decide⟩
  intro referSub
  cases referSub with
  | none =>
    constructor
    · intro _
      exact Or.inl rfl
    · intro _
      rfl
  | some v =>
    have hstr : ("true".toList : List Char) = ['t', 'r', 'u', 'e'] := rfl
    constructor
    · intro hcreated
      by_cases h : pj_strnicmp v (['t', 'r', 'u', 'e']) 4 = 0
      · rcases (pj_strnicmp_true_eq_zero v).mp h with ⟨h1, h2⟩
        exact Or.inr ⟨v, rfl, h1, h2⟩
      · exfalso
        have hopt : referSubOptOut (some v) = true := by
          simp [referSubOptOut, hstr, h]
        rw [refer_progress_alloc, if_pos (by rw [hopt])] at hcreated
        exact absurd hcreated (by simp [progressCreated])
    · intro hr
      have hz : pj_strnicmp v (['t', 'r', 'u', 'e']) 4 = 0 := by
        rcases hr with h | ⟨w, hw, h1, h2⟩
        · exact absurd h (by simp)
        · have hv : w = v := by
            injection hw with h3
            exact h3.symm
          subst hv
          exact (pj_strnicmp_true_eq_zero w).mpr ⟨h1, h2⟩
      have hopt : referSubOptOut (some v) = false := by
        simp [referSubOptOut, hstr, hz]
      rw [refer_progress_alloc, if_neg (by rw [hopt]; exact Bool.false_ne_true)]
      rfl

end SipRefer
